import Mathlib

/-!
Shallow embedding of the go-sse server-sent-events broadcast engine
(package `sse`: `client.go`, `channel.go`, `server.go`, with `message.go`
and `options.go` modelled from the spec where the source is absent).

Goroutine-channel operations are embedded by their observable outcome:
a send on a closed Go channel panics, a send on an unbuffered Go channel
with no live receiver blocks forever, and a send received by the running
`dispatch` goroutine is modelled by applying the corresponding branch of
the dispatch loop body atomically (the loop serializes all such events).
Durations are carried as natural numbers of milliseconds.
-/

namespace SSE

/-- Modelled from the spec: `Message` is an immutable value
`{identifier: string, payload: bytes, retryHint: duration}` (`message.go`
is not part of the provided source; the fields `id`, `data`, `retry`
are those the provided source reads). -/
structure Message where
  id : String
  data : String
  retry : Nat
deriving DecidableEq, Repr, Inhabited

/-- Capacity of a client's buffered `send` channel (`make(chan *Message, 1024)`). -/
def clientSendCapacity : Nat := 1024

/-- `Client` from `client.go`: `lastEventID`, `channel string`, and the
buffered Go channel `send chan *Message`, embedded as the list of queued
messages plus a flag recording whether `close(c.send)` has happened.
`cid` models Go pointer identity: channel membership is a map keyed by
`*Client`, so two distinct connections are distinct pointers. -/
structure Client where
  cid : Nat
  lastEventID : String
  channel : String
  send : List Message
  sendClosed : Bool
deriving DecidableEq, Repr, Inhabited

/-- `newClient` from `client.go`: fresh client with an empty outbox
(the `cid` argument supplies the identity of the new `*Client`). -/
def newClient (cid : Nat) (lastEventID channel : String) : Client :=
  { cid := cid, lastEventID := lastEventID, channel := channel,
    send := [], sendClosed := false }

/-- Result of `Client.SendMessage`: the updated client, and whether the
send on `c.send` completed (`enqueued := false` models the blocking send
`c.send <- message` stuck on a full buffer with no concurrent receiver). -/
structure ClientSendResult where
  client : Client
  enqueued : Bool
deriving DecidableEq, Repr

/-- `Client.SendMessage` from `client.go`: `c.lastEventID = message.id`
is executed first, unconditionally, then the blocking send `c.send <- message`
is attempted (it completes exactly when the 1024-slot buffer has room,
absent a concurrent receiver). -/
def Client.SendMessage (c : Client) (message : Message) : ClientSendResult :=
  let c1 := { c with lastEventID := message.id }
  if c1.send.length < clientSendCapacity then
    { client := { c1 with send := c1.send ++ [message] }, enqueued := true }
  else
    { client := c1, enqueued := false }

/-- `Client.LastEventID` from `client.go`. -/
def Client.LastEventID (c : Client) : String := c.lastEventID

/-- `Client.Channel` from `client.go`. -/
def Client.chanName (c : Client) : String := c.channel

/-- The transport adapter's drain loop (`for msg := range c.send`): it
yields the queued messages and terminates exactly when the outbox has
been closed; on an open outbox it blocks for more (`none`). -/
def Client.drain (c : Client) : Option (List Message) :=
  if c.sendClosed then some c.send else none

/-- `Channel` from `channel.go`: `lastEventID`, `name`, and
`clients map[*Client]bool` embedded as a list (every key present in the
Go map has value `true`: `addClient` stores `true` and `removeClient`
deletes the key). -/
structure Channel where
  lastEventID : String
  name : String
  clients : List Client
deriving DecidableEq, Repr, Inhabited

/-- `newChannel` from `channel.go`. -/
def newChannel (name : String) : Channel :=
  { lastEventID := "", name := name, clients := [] }

/-- `sendMessageToClientTimeout = 200 * time.Millisecond` from `channel.go`,
in milliseconds. -/
def sendMessageToClientTimeout : Nat := 200

/-- One iteration of the fan-out loop body of `Channel.SendMessage`:
`select { case c.send <- message: case <-timer.C: }` — the message is
appended when the buffer has room, otherwise the 200 ms timer fires and
the message is dropped for this client (no concurrent drain is modelled
during the publish). Note the client's `lastEventID` is not touched. -/
def deliverTo (message : Message) (c : Client) : Client :=
  if c.send.length < clientSendCapacity then
    { c with send := c.send ++ [message] }
  else
    c

/-- The fan-out loop of `Channel.SendMessage` over the client list:
returns the updated clients and the worst-case elapsed milliseconds
(a full buffer costs one `sendMessageToClientTimeout`; a send with room
is immediate). -/
def fanOut (message : Message) : List Client → List Client × Nat
  | [] => ([], 0)
  | c :: rest =>
    let r := fanOut message rest
    if c.send.length < clientSendCapacity then
      ({ c with send := c.send ++ [message] } :: r.1, r.2)
    else
      (c :: r.1, r.2 + sendMessageToClientTimeout)

/-- `Channel.SendMessage` from `channel.go`: first `c.lastEventID = message.id`
under the write lock, then the fan-out loop over `c.clients` under the read
lock. -/
def Channel.SendMessage (ch : Channel) (message : Message) : Channel :=
  { ch with lastEventID := message.id, clients := (fanOut message ch.clients).1 }

/-- Worst-case elapsed time of one `Channel.SendMessage` call, in
milliseconds (the sum of the timer waits spent on full outboxes). -/
def Channel.sendElapsed (ch : Channel) (message : Message) : Nat :=
  (fanOut message ch.clients).2

/-- Intermediate state of `Channel.SendMessage` after the `lastEventID`
assignment and the first `k` iterations of the fan-out loop (clients
beyond position `k` not yet offered the message). -/
def Channel.sendUpTo (ch : Channel) (message : Message) (k : Nat) : Channel :=
  { ch with
    lastEventID := message.id,
    clients := (fanOut message (ch.clients.take k)).1 ++ ch.clients.drop k }

/-- `Channel.ClientCount` from `channel.go`: `len(c.clients)`. -/
def Channel.ClientCount (ch : Channel) : Nat := ch.clients.length

/-- `Channel.LastEventID` from `channel.go`. -/
def Channel.LastEventID (ch : Channel) : String := ch.lastEventID

/-- `Channel.addClient` from `channel.go`: `c.clients[client] = true`
(a map store keyed by the pointer: a no-op when the key is present). -/
def Channel.addClient (ch : Channel) (client : Client) : Channel :=
  if ch.clients.any (fun x => x.cid == client.cid) then ch
  else { ch with clients := ch.clients ++ [client] }

/-- `Channel.removeClient` from `channel.go`: deletes the key from the
clients map, then `close(client.send)`; returns the updated channel and
the closed client. -/
def Channel.removeClient (ch : Channel) (client : Client) : Channel × Client :=
  ({ ch with clients := ch.clients.filter (fun x => x.cid != client.cid) },
   { client with sendClosed := true })

/-- `Channel.Close` from `channel.go`: `removeClient` on every member;
returns the emptied channel and the closed clients. -/
def Channel.Close (ch : Channel) : Channel × List Client :=
  ({ ch with clients := [] },
   ch.clients.map (fun c => { c with sendClosed := true }))

/-- Modelled from the spec: the configuration surface of `Options`
(`options.go` is not part of the provided source): `Headers` merged into
every stream response, `RetryInterval`, and `DontStartServer` which makes
`NewServer` construct in the unstarted state. The logger and the
`ChannelNameFunc` override are elided (pure logging; the default topic
resolution — the request path — is embedded in `ServeHTTP`). -/
structure Options where
  headers : List (String × String)
  dontStartServer : Bool
  retryInterval : Nat
deriving DecidableEq, Repr

/-- Errors of `server.go`: `ErrServerNotStarted`, `ErrServerStarted`. -/
inductive SSEError where
  | ServerNotStarted
  | ServerStarted
deriving DecidableEq, Repr

/-- Observable outcome of an operation that may interact with the control
Go channels: a normal return, an error return, a send that blocks forever
(unbuffered channel with no live receiver), or a panic from a send on a
closed channel. -/
inductive OpOutcome (α : Type) where
  | ok (a : α)
  | err (e : SSEError)
  | blocksForever
  | panicSendOnClosed
deriving DecidableEq, Repr

/-- `Server` from `server.go`. The four control Go channels `addClient`,
`removeClient`, `closeChannel`, `shutdown` are embedded by two facts about
them: whether the `dispatch` goroutine is alive to receive from them
(`dispatchRunning`) and whether they have been closed (`ctrlClosed` — the
shutdown branch of `dispatch` closes all four together). The channel map
is an association list with the Go-map reading (at most one live binding
per name). -/
structure Server where
  options : Options
  channels : List (String × Channel)
  isStarted : Bool
  dispatchRunning : Bool
  ctrlClosed : Bool
deriving DecidableEq, Repr

/-- `Server.hasStarted` from `server.go`. -/
def Server.hasStarted (s : Server) : Bool := s.isStarted

/-- `Server.getChannel` from `server.go`: map lookup. -/
def Server.getChannel (s : Server) (name : String) : Option Channel :=
  (s.channels.find? (fun p => p.1 == name)).map (fun p => p.2)

/-- Writing through the map entry for `name` (Go mutates the `*Channel`
stored in the map in place). -/
def Server.setChannel (s : Server) (name : String) (ch : Channel) : Server :=
  { s with channels := s.channels.map (fun p => if p.1 == name then (p.1, ch) else p) }

/-- `Server.HasChannel` from `server.go`. -/
def Server.HasChannel (s : Server) (name : String) : Bool :=
  (s.getChannel name).isSome

/-- `Server.Channels` from `server.go`: the list of channel names. -/
def Server.Channels (s : Server) : List String :=
  s.channels.map (fun p => p.1)

/-- `Server.ClientCount` from `server.go`: total clients over all channels. -/
def Server.ClientCount (s : Server) : Nat :=
  (s.channels.map (fun p => p.2.ClientCount)).sum

/-- `Server.addChannel` from `server.go`: insert a fresh channel into the map. -/
def Server.addChannel (s : Server) (name : String) : Server × Channel :=
  let ch := newChannel name
  ({ s with channels := s.channels ++ [(name, ch)] }, ch)

/-- `Server.removeChannel` from `server.go`: delete the map entry for
`ch.name`, then `ch.Close()`; returns the server and the closed clients. -/
def Server.removeChannel (s : Server) (ch : Channel) : Server × List Client :=
  ({ s with channels := s.channels.filter (fun p => p.1 != ch.name) },
   (ch.Close).2)

/-- `Server.close` from `server.go`: `removeChannel` on every channel;
returns the server (empty map) and all closed clients. -/
def Server.close (s : Server) : Server × List Client :=
  ({ s with channels := [] },
   (s.channels.map (fun p => p.2.clients.map (fun c => { c with sendClosed := true }))).flatten)

/-- `Server.SendMessage` from `server.go`: `NotStarted` unless
`hasStarted`; empty name broadcasts to every channel in the map; a named
send publishes to the channel if present and is a logged no-op otherwise
(`len(channelName) == 0` is embedded as equality with `""`). -/
def Server.SendMessage (s : Server) (channelName : String) (message : Message) :
    Except SSEError Server :=
  if !s.hasStarted then .error .ServerNotStarted
  else if channelName = "" then
    .ok { s with channels := s.channels.map (fun p => (p.1, p.2.SendMessage message)) }
  else
    match s.getChannel channelName with
    | some ch => .ok (s.setChannel channelName (ch.SendMessage message))
    | none => .ok s

/-- `Server.Start` from `server.go`: `ErrServerStarted` when already
started, otherwise `go s.dispatch()` (the loop becomes live) and
`isStarted = true`. -/
def Server.Start (s : Server) : Except SSEError Server :=
  if s.hasStarted then .error .ServerStarted
  else .ok { s with isStarted := true, dispatchRunning := true }

/-- `Server.Restart` from `server.go`: `ErrServerNotStarted` when
`hasStarted` is false, otherwise `s.close()` (a direct call — no control
channel is involved). -/
def Server.Restart (s : Server) : Except SSEError Server :=
  if !s.hasStarted then .error .ServerNotStarted
  else .ok (s.close).1

/-- `Server.Shutdown` from `server.go`: `ErrServerNotStarted` when
`hasStarted` is false, otherwise `s.shutdown <- true` — a panic if the
control channels are already closed, received by the shutdown branch of
`dispatch` when the loop is live (which runs `s.close()`, closes the four
control channels and exits; note it never resets `isStarted`), and a
forever-blocking send otherwise. -/
def Server.Shutdown (s : Server) : OpOutcome Server :=
  if !s.hasStarted then .err .ServerNotStarted
  else if s.ctrlClosed then .panicSendOnClosed
  else if s.dispatchRunning then
    .ok { (s.close).1 with dispatchRunning := false, ctrlClosed := true }
  else .blocksForever

/-- The `closeChannel` branch of the `dispatch` loop in `server.go`:
remove the named channel if present, else a logged no-op. -/
def Server.dispatchCloseChannel (s : Server) (name : String) : Server :=
  match s.getChannel name with
  | some ch => (s.removeChannel ch).1
  | none => s

/-- `Server.CloseChannel` from `server.go`: `s.closeChannel <- name` on
the unbuffered control channel — there is no started-state check and no
error return; the send panics when the control channels are closed,
is processed by the live dispatch loop, and blocks forever otherwise. -/
def Server.CloseChannel (s : Server) (name : String) : OpOutcome Server :=
  if s.ctrlClosed then .panicSendOnClosed
  else if s.dispatchRunning then .ok (s.dispatchCloseChannel name)
  else .blocksForever

/-- The `addClient` branch of the `dispatch` loop in `server.go`: look up
the client's channel, create it if absent, attach the client. -/
def Server.dispatchAddClient (s : Server) (c : Client) : Server :=
  match s.getChannel c.channel with
  | some ch => s.setChannel c.channel (ch.addClient c)
  | none =>
    let r := s.addChannel c.channel
    r.1.setChannel c.channel (r.2.addClient c)

/-- The `removeClient` branch of the `dispatch` loop in `server.go`: if
the client's channel exists, `ch.removeClient(c)` (detach and close the
outbox), then remove the channel when its client count has become zero;
returns the server and the closed client (when the branch ran). -/
def Server.dispatchRemoveClient (s : Server) (c : Client) : Server × Option Client :=
  match s.getChannel c.channel with
  | none => (s, none)
  | some ch =>
    let r := ch.removeClient c
    let s1 := s.setChannel c.channel r.1
    if r.1.ClientCount == 0 then ((s1.removeChannel r.1).1, some r.2)
    else (s1, some r.2)

/-- `NewServer` from `server.go`: fresh state (empty map, open control
channels, not started), auto-started unless `DontStartServer`. -/
def NewServer (options : Options) : Server :=
  let s : Server :=
    { options := options, channels := [], isStarted := false,
      dispatchRunning := false, ctrlClosed := false }
  if options.dontStartServer then s
  else
    match s.Start with
    | .ok s1 => s1
    | .error _ => s

/-- An HTTP request as `ServeHTTP` observes it: method, URL path, the
`Last-Event-ID` header, and whether the request context is already done
(`closeNotify`) when the admission `select` runs. -/
structure Request where
  method : String
  path : String
  lastEventIDHeader : String
  ctxDone : Bool
deriving DecidableEq, Repr

/-- The observable effects of one `ServeHTTP` call: the explicit status
written (none when the handler returns without `WriteHeader`), the
headers set, whether the long-lived event stream was opened, and whether
a client was admitted onto `s.addClient`. -/
structure Response where
  status : Option Nat
  headers : List (String × String)
  streamOpened : Bool
  clientAdmitted : Bool
deriving DecidableEq, Repr

/-- The four stream headers the GET branch of `ServeHTTP` sets. -/
def sseStreamHeaders : List (String × String) :=
  [("Content-Type", "text/event-stream"), ("Cache-Control", "no-cache"),
   ("Connection", "keep-alive"), ("X-Accel-Buffering", "no")]

/-- `Server.ServeHTTP` from `server.go`: 500 via `http.Error` when not
started or the writer is no `http.Flusher`; otherwise the configured
extra headers are set, then GET opens the stream (admitting a client and
writing 200, unless the context is already done, in which case it returns
before admission), OPTIONS returns with no explicit status, and any other
method gets 405. The streaming drain loop itself and the deferred
`removeClient` notification are concurrency outside this state function. -/
def Server.ServeHTTP (s : Server) (flusherOk : Bool) (r : Request) : Response :=
  if !s.isStarted then
    { status := some 500, headers := [], streamOpened := false, clientAdmitted := false }
  else if !flusherOk then
    { status := some 500, headers := [], streamOpened := false, clientAdmitted := false }
  else
    let hs := s.options.headers
    if r.method = "GET" then
      if r.ctxDone then
        { status := none, headers := hs ++ sseStreamHeaders,
          streamOpened := false, clientAdmitted := false }
      else
        { status := some 200, headers := hs ++ sseStreamHeaders,
          streamOpened := true, clientAdmitted := true }
    else if r.method = "OPTIONS" then
      { status := none, headers := hs, streamOpened := false, clientAdmitted := false }
    else
      { status := some 405, headers := hs, streamOpened := false, clientAdmitted := false }

instance {ε α : Type} [DecidableEq ε] [DecidableEq α] : DecidableEq (Except ε α) :=
  fun x y =>
    match x, y with
    | .ok a, .ok b =>
      if h : a = b then .isTrue (by rw [h])
      else .isFalse (by intro hh; cases hh; exact h rfl)
    | .error a, .error b =>
      if h : a = b then .isTrue (by rw [h])
      else .isFalse (by intro hh; cases hh; exact h rfl)
    | .ok _, .error _ => .isFalse (by intro h; cases h)
    | .error _, .ok _ => .isFalse (by intro h; cases h)

/-- Every pair in the zip of a list with its image under a map is of the
form `(x, f x)` for a member `x`. -/
theorem zip_self_map {α β : Type} (f : α → β) :
    ∀ (cs : List α) (p : α × β), p ∈ cs.zip (cs.map f) → ∃ x, x ∈ cs ∧ p = (x, f x)
  | [], p, hp => by simp [List.zip] at hp
  | c :: rest, p, hp => by
    simp only [List.map_cons, List.zip_cons_cons, List.mem_cons] at hp
    rcases hp with h | h
    · exact ⟨c, List.mem_cons_self c rest, h⟩
    · rcases zip_self_map f rest p h with ⟨x, hx, hpx⟩
      exact ⟨x, List.mem_cons_of_mem _ hx, hpx⟩

/-- The client list produced by the fan-out loop is the pointwise
`deliverTo` image of the input list. -/
theorem fanOut_fst (m : Message) (cs : List Client) :
    (fanOut m cs).1 = cs.map (deliverTo m) := by
  induction cs with
  | nil => rfl
  | cons c rest ih =>
    by_cases h : c.send.length < clientSendCapacity <;>
      simp [fanOut, deliverTo, h, ih]

/-- The elapsed time accumulated by the fan-out loop is one
`sendMessageToClientTimeout` per client whose outbox is full. -/
theorem fanOut_snd (m : Message) (cs : List Client) :
    (fanOut m cs).2 =
      sendMessageToClientTimeout *
        cs.countP (fun c => decide (clientSendCapacity ≤ c.send.length)) := by
  induction cs with
  | nil => simp [fanOut]
  | cons c rest ih =>
    by_cases h : c.send.length < clientSendCapacity
    · have h' : ¬ clientSendCapacity ≤ c.send.length := by omega
      simp [fanOut, List.countP_cons, h, h', ih]
    · have h' : clientSendCapacity ≤ c.send.length := by omega
      simp [fanOut, List.countP_cons, h, h', ih]
      ring

/-- Concrete fixtures used by witnesses and counterexamples. -/
def msgHello : Message := { id := "m1", data := "hello", retry := 0 }

def optsNoStart : Options :=
  { headers := [], dontStartServer := true, retryInterval := 0 }

def srvUnstarted : Server := NewServer optsNoStart

def srvRunning : Server :=
  { srvUnstarted with isStarted := true, dispatchRunning := true }

def srvStopped : Server :=
  { srvRunning with dispatchRunning := false, ctrlClosed := true }

/-- A full outbox makes `deliverTo` drop the message: the client is
returned unchanged. -/
theorem deliverTo_full (m : Message) (c : Client)
    (h : clientSendCapacity ≤ c.send.length) : deliverTo m c = c := by
  unfold deliverTo
  rw [if_neg (by omega)]

/-- An outbox with room receives the message at the back of the queue. -/
theorem deliverTo_room (m : Message) (c : Client)
    (h : c.send.length < clientSendCapacity) :
    deliverTo m c = { c with send := c.send ++ [m] } := by
  unfold deliverTo
  rw [if_pos h]

/-- The fan-out delivery never touches the client's `lastEventID`. -/
theorem deliverTo_lastEventID (m : Message) (c : Client) :
    (deliverTo m c).lastEventID = c.lastEventID := by
  unfold deliverTo
  split <;> rfl

/-- C1: on the unstarted server `SendMessage` fails with `NotStarted` and
a second `Start` fails with `AlreadyStarted`, as the claim states; but
after `Shutdown` has completed, `SendMessage` returns no error at all
(the dispatch shutdown branch never resets `isStarted`), contradicting
the claim's `NotStarted` requirement. -/
theorem C1_shutdown_divergence :
    srvUnstarted.SendMessage "x" msgHello = .error .ServerNotStarted ∧
    srvUnstarted.Start = .ok srvRunning ∧
    srvRunning.Start = .error .ServerStarted ∧
    srvRunning.Shutdown = .ok srvStopped ∧
    srvStopped.SendMessage "x" msgHello = .ok srvStopped ∧
    ¬ srvStopped.SendMessage "x" msgHello = .error .ServerNotStarted := by
  decide

/-- C2: in a channel publish, a client whose outbox is full when the
message arrives is left unchanged (the message is dropped for that client
after its 200 ms wait), every client with room receives the message at
the back of its queue, and the elapsed time of the publish call is
exactly one timeout per saturated client, hence at most one timeout per
attached client. -/
theorem C2_full_outbox_drop (ch : Channel) (m : Message) (p q : Client × Client)
    (hp : p ∈ ch.clients.zip ((ch.SendMessage m).clients))
    (hq : q ∈ ch.clients.zip ((ch.SendMessage m).clients))
    (hpFull : clientSendCapacity ≤ p.1.send.length)
    (hqRoom : q.1.send.length < clientSendCapacity) :
    p.2 = p.1 ∧
    q.2.send = q.1.send ++ [m] ∧
    ch.sendElapsed m =
      sendMessageToClientTimeout *
        ch.clients.countP (fun c => decide (clientSendCapacity ≤ c.send.length)) ∧
    ch.sendElapsed m ≤ sendMessageToClientTimeout * ch.clients.length := by
  have hcl : (ch.SendMessage m).clients = ch.clients.map (deliverTo m) := by
    simp [Channel.SendMessage, fanOut_fst]
  rw [hcl] at hp hq
  obtain ⟨x, -, rfl⟩ := zip_self_map (deliverTo m) ch.clients p hp
  obtain ⟨y, -, rfl⟩ := zip_self_map (deliverTo m) ch.clients q hq
  refine ⟨deliverTo_full m x hpFull, ?_, ?_, ?_⟩
  · rw [show (y, deliverTo m y).2 = deliverTo m y from rfl, deliverTo_room m y hqRoom]
  · exact fanOut_snd m ch.clients
  · unfold Channel.sendElapsed
    rw [fanOut_snd]
    exact Nat.mul_le_mul_left _ (List.countP_le_length _)

/-- A client whose outbox is exactly full (capacity many queued messages). -/
def clientFull : Client :=
  { cid := 0, lastEventID := "", channel := "t",
    send := List.replicate clientSendCapacity msgHello, sendClosed := false }

/-- A freshly attached client with an empty outbox. -/
def clientRoom : Client := newClient 1 "" "t"

/-- A channel holding one saturated and one fresh client. -/
def chanWitness : Channel :=
  { lastEventID := "", name := "t", clients := [clientFull, clientRoom] }

/-- Evaluated fan-out on the witness channel: the saturated client is
unchanged, the fresh client receives the message. -/
theorem chanWitness_send :
    (chanWitness.SendMessage msgHello).clients =
      [clientFull, { clientRoom with send := clientRoom.send ++ [msgHello] }] := by
  have h1 : clientSendCapacity ≤ clientFull.send.length := by
    simp [clientFull]
  have h2 : clientRoom.send.length < clientSendCapacity := by
    simp [clientRoom, newClient, clientSendCapacity]
  simp [Channel.SendMessage, fanOut_fst, chanWitness,
    deliverTo_full msgHello clientFull h1, deliverTo_room msgHello clientRoom h2]

theorem C2_full_outbox_drop_witness :
    clientSendCapacity ≤ clientFull.send.length ∧
    clientRoom.send.length < clientSendCapacity ∧
    (clientFull = clientFull ∧
     ({ clientRoom with send := clientRoom.send ++ [msgHello] } : Client).send =
       clientRoom.send ++ [msgHello] ∧
     chanWitness.sendElapsed msgHello =
       sendMessageToClientTimeout *
         chanWitness.clients.countP (fun c => decide (clientSendCapacity ≤ c.send.length)) ∧
     chanWitness.sendElapsed msgHello ≤
       sendMessageToClientTimeout * chanWitness.clients.length) := by
  have h1 : clientSendCapacity ≤ clientFull.send.length := by
    simp [clientFull]
  have h2 : clientRoom.send.length < clientSendCapacity := by
    simp [clientRoom, newClient, clientSendCapacity]
  have hm1 : (clientFull, clientFull) ∈
      chanWitness.clients.zip ((chanWitness.SendMessage msgHello).clients) := by
    rw [chanWitness_send]
    simp [chanWitness]
  have hm2 : (clientRoom, ({ clientRoom with send := clientRoom.send ++ [msgHello] } : Client)) ∈
      chanWitness.clients.zip ((chanWitness.SendMessage msgHello).clients) := by
    rw [chanWitness_send]
    simp [chanWitness]
  exact ⟨h1, h2, C2_full_outbox_drop chanWitness msgHello
    (clientFull, clientFull) (clientRoom, _) hm1 hm2 h1 h2⟩

/-- A fresh client with an empty outbox for the C3 counterexample. -/
def clientFresh : Client := newClient 0 "" "t"

/-- A channel holding just the fresh client. -/
def chanC3 : Channel := { lastEventID := "", name := "t", clients := [clientFresh] }

/-- C3 counterexample: during channel fan-out the enqueue onto the fresh
client's outbox succeeds (the message is in its queue afterwards), yet
the client's `lastEventID` is left at `""` rather than being updated to
the message's identifier — refuting "updated ... exactly when the
enqueue succeeds ... including during channel fan-out". -/
theorem C3_counterexample :
    (chanC3.SendMessage msgHello).clients.map Client.send = [[msgHello]] ∧
    (chanC3.SendMessage msgHello).clients.map Client.lastEventID = [""] ∧
    msgHello.id ≠ "" := by
  decide

/-- C3 (amended): `Client.SendMessage` records the message identifier as
`lastEventID` unconditionally, before the blocking enqueue — even when
the outbox is full — and the enqueue completes exactly when the outbox
has room; channel fan-out enqueues directly on the outbox (bounded by
the 200 ms timeout) and never updates the client's `lastEventID`,
whether or not the message is delivered. -/
theorem C3_lastEventID_amended (c : Client) (m : Message) (ch : Channel)
    (p : Client × Client)
    (hp : p ∈ ch.clients.zip ((ch.SendMessage m).clients)) :
    (c.SendMessage m).client.lastEventID = m.id ∧
    ((c.SendMessage m).enqueued = true ↔ c.send.length < clientSendCapacity) ∧
    p.2.lastEventID = p.1.lastEventID := by
  have hcl : (ch.SendMessage m).clients = ch.clients.map (deliverTo m) := by
    simp [Channel.SendMessage, fanOut_fst]
  rw [hcl] at hp
  obtain ⟨x, -, rfl⟩ := zip_self_map (deliverTo m) ch.clients p hp
  refine ⟨?_, ?_, deliverTo_lastEventID m x⟩
  · by_cases h : c.send.length < clientSendCapacity <;> simp [Client.SendMessage, h]
  · by_cases h : c.send.length < clientSendCapacity <;> simp [Client.SendMessage, h]

theorem C3_lastEventID_amended_witness :
    (clientFresh, ({ clientFresh with send := [msgHello] } : Client)) ∈
      chanC3.clients.zip ((chanC3.SendMessage msgHello).clients) ∧
    ((clientFresh.SendMessage msgHello).client.lastEventID = msgHello.id ∧
     ((clientFresh.SendMessage msgHello).enqueued = true ↔
       clientFresh.send.length < clientSendCapacity) ∧
     ({ clientFresh with send := [msgHello] } : Client).lastEventID =
       clientFresh.lastEventID) :=
  ⟨by decide, C3_lastEventID_amended clientFresh msgHello chanC3
    (clientFresh, ({ clientFresh with send := [msgHello] } : Client)) (by decide)⟩

/-- C4: on a started server `SendMessage` never returns an error; with a
non-empty topic whose channel is absent it is an exact no-op (the server,
channel map included, is returned unchanged, so no channel is created);
with the empty topic it succeeds with a server having the same channel
names, in which every client of every channel whose outbox has room gets
the message appended exactly once at the back of its queue. -/
theorem C4_broadcast (s : Server) (m : Message) (name : String)
    (h : s.isStarted = true) :
    (∃ s1, s.SendMessage name m = .ok s1) ∧
    (name ≠ "" → s.getChannel name = none → s.SendMessage name m = .ok s) ∧
    (∃ s1, s.SendMessage "" m = .ok s1 ∧
      s1.Channels = s.Channels ∧
      ∀ q ∈ (s.channels.map (fun p => p.2)).zip (s1.channels.map (fun p => p.2)),
        ∀ pc ∈ q.1.clients.zip q.2.clients,
          pc.1.send.length < clientSendCapacity → pc.2.send = pc.1.send ++ [m]) := by
  have hstart : (!s.hasStarted) = false := by simp [Server.hasStarted, h]
  refine ⟨?_, ?_, ?_⟩
  · by_cases hn : name = ""
    · exact ⟨{ s with channels := s.channels.map (fun p => (p.1, p.2.SendMessage m)) },
        by simp [Server.SendMessage, hstart, hn]⟩
    · cases hget : s.getChannel name with
      | some ch => exact ⟨s.setChannel name (ch.SendMessage m),
          by simp [Server.SendMessage, hstart, hn, hget]⟩
      | none => exact ⟨s, by simp [Server.SendMessage, hstart, hn, hget]⟩
  · intro hn hget
    simp [Server.SendMessage, hstart, hn, hget]
  · refine ⟨{ s with channels := s.channels.map (fun p => (p.1, p.2.SendMessage m)) },
      by simp [Server.SendMessage, hstart], by simp [Server.Channels, List.map_map], ?_⟩
    intro q hq pc hpc hroom
    have hmap : (({ s with channels := s.channels.map (fun p => (p.1, p.2.SendMessage m)) } :
          Server).channels.map (fun p => p.2))
        = (s.channels.map (fun p => p.2)).map (fun ch => ch.SendMessage m) := by
      simp [List.map_map]
    rw [hmap] at hq
    obtain ⟨ch, -, hq2⟩ := zip_self_map (fun ch => ch.SendMessage m)
      (s.channels.map (fun p => p.2)) q hq
    have hpc' : pc ∈ ch.clients.zip ((ch.SendMessage m).clients) := by
      rw [hq2] at hpc
      exact hpc
    have hcl : (ch.SendMessage m).clients = ch.clients.map (deliverTo m) := by
      simp [Channel.SendMessage, fanOut_fst]
    rw [hcl] at hpc'
    obtain ⟨x, -, hpcx⟩ := zip_self_map (deliverTo m) ch.clients pc hpc'
    rw [hpcx] at hroom ⊢
    show (deliverTo m x).send = x.send ++ [m]
    rw [deliverTo_room m x hroom]

/-- A started server holding one channel named `t` with one fresh client. -/
def srvWithChan : Server := { srvRunning with channels := [("t", chanC3)] }

theorem C4_broadcast_witness :
    srvWithChan.isStarted = true ∧
    ((∃ s1, srvWithChan.SendMessage "absent" msgHello = .ok s1) ∧
     ("absent" ≠ "" → srvWithChan.getChannel "absent" = none →
        srvWithChan.SendMessage "absent" msgHello = .ok srvWithChan) ∧
     (∃ s1, srvWithChan.SendMessage "" msgHello = .ok s1 ∧
       s1.Channels = srvWithChan.Channels ∧
       ∀ q ∈ (srvWithChan.channels.map (fun p => p.2)).zip (s1.channels.map (fun p => p.2)),
         ∀ pc ∈ q.1.clients.zip q.2.clients,
           pc.1.send.length < clientSendCapacity → pc.2.send = pc.1.send ++ [msgHello])) :=
  ⟨by decide, C4_broadcast srvWithChan msgHello "absent" (by decide)⟩

/-- C5: in a channel publish the channel's `lastEventID` is assigned the
published message's identifier strictly before fan-out begins — at stage
0 of the fan-out no client's queue has changed and the identifier is
already in place — it remains that identifier at every intermediate
stage `k` (the final stage being the completed `SendMessage`), and hence
at any stage any client whose queue holds the message observes the
channel's `LastEventID` already equal to that message's identifier —
never behind what a client has received. -/
theorem C5_lastEventID_before_fanout (ch : Channel) (m : Message) :
    ((ch.sendUpTo m 0).clients = ch.clients ∧ (ch.sendUpTo m 0).lastEventID = m.id) ∧
    (∀ k, (ch.sendUpTo m k).lastEventID = m.id) ∧
    ch.sendUpTo m ch.clients.length = ch.SendMessage m ∧
    (∀ k c', c' ∈ (ch.sendUpTo m k).clients → m ∈ c'.send →
      (ch.sendUpTo m k).LastEventID = m.id) := by
  refine ⟨⟨?_, rfl⟩, fun k => rfl, ?_, fun k c' _ _ => rfl⟩
  · simp [Channel.sendUpTo, fanOut]
  · simp [Channel.sendUpTo, Channel.SendMessage, List.take_length, List.drop_length]

theorem C5_lastEventID_before_fanout_witness :
    ({ clientFresh with send := [msgHello] } : Client) ∈
      (chanC3.sendUpTo msgHello 1).clients ∧
    msgHello ∈ ({ clientFresh with send := [msgHello] } : Client).send ∧
    (chanC3.sendUpTo msgHello 1).LastEventID = msgHello.id :=
  ⟨by decide, by decide,
   (C5_lastEventID_before_fanout chanC3 msgHello).2.2.2 1
     ({ clientFresh with send := [msgHello] } : Client) (by decide) (by decide)⟩

/-- C6: when the dispatch loop processes removal of a client whose channel
exists in the registry (`hname` is the registry invariant that the map
entry's channel carries its own key as name), the client is detached —
no channel stored under its topic name retains an entry with its
identity — its outbox is closed so its drain sequence terminates, and if
the channel's membership has thereby become empty, the channel's name no
longer appears in the channel listing. -/
theorem C6_remove_client (s : Server) (c : Client) (ch : Channel)
    (h : s.getChannel c.channel = some ch) (hname : ch.name = c.channel) :
    (s.dispatchRemoveClient c).2 = some { c with sendClosed := true } ∧
    (({ c with sendClosed := true } : Client).drain).isSome ∧
    (∀ p ∈ (s.dispatchRemoveClient c).1.channels, p.1 = c.channel →
      ∀ x ∈ p.2.clients, x.cid ≠ c.cid) ∧
    ((ch.removeClient c).1.ClientCount = 0 →
      ¬ c.channel ∈ (s.dispatchRemoveClient c).1.Channels) := by
  have hdrain : (({ c with sendClosed := true } : Client).drain).isSome := by
    simp [Client.drain]
  have hrname : (ch.removeClient c).1.name = c.channel := by
    simp [Channel.removeClient, hname]
  by_cases hz : (ch.removeClient c).1.ClientCount = 0
  · have hres : s.dispatchRemoveClient c =
        ({ s with
            channels :=
              (s.channels.map (fun p =>
                if p.1 == c.channel then (p.1, (ch.removeClient c).1) else p)).filter
                (fun p => p.1 != (ch.removeClient c).1.name) },
         some (ch.removeClient c).2) := by
      simp [Server.dispatchRemoveClient, h, hz, Server.setChannel, Server.removeChannel]
    refine ⟨by rw [hres]; simp [Channel.removeClient], hdrain, ?_, ?_⟩
    · intro p hp hp1 x hx
      rw [hres] at hp
      simp only [List.mem_filter] at hp
      rw [hrname] at hp
      rw [hp1] at hp
      simp at hp
    · intro _ hmem
      rw [hres] at hmem
      simp only [Server.Channels, List.mem_map, List.mem_filter] at hmem
      obtain ⟨p, ⟨-, hne⟩, hp1⟩ := hmem
      rw [hrname, hp1] at hne
      simp at hne
  · have hres : s.dispatchRemoveClient c =
        (s.setChannel c.channel (ch.removeClient c).1, some (ch.removeClient c).2) := by
      simp [Server.dispatchRemoveClient, h, hz]
    refine ⟨by rw [hres]; simp [Channel.removeClient], hdrain, ?_, fun hz0 => absurd hz0 hz⟩
    intro p hp hp1 x hx
    rw [hres] at hp
    simp only [Server.setChannel, List.mem_map] at hp
    obtain ⟨a, -, ha⟩ := hp
    by_cases hak : a.1 = c.channel
    · rw [if_pos (by simp [hak])] at ha
      have hx2 : x ∈ (ch.removeClient c).1.clients := by
        rw [← ha] at hx
        exact hx
      simp only [Channel.removeClient, List.mem_filter] at hx2
      simpa using hx2.2
    · rw [if_neg (by simp [hak])] at ha
      rw [← ha] at hp1
      exact absurd hp1 hak

/-- A started server whose only channel will become empty when its only
client is removed. -/
theorem C6_remove_client_witness :
    srvWithChan.getChannel clientFresh.channel = some chanC3 ∧
    chanC3.name = clientFresh.channel ∧
    ((srvWithChan.dispatchRemoveClient clientFresh).2 =
       some { clientFresh with sendClosed := true } ∧
     (({ clientFresh with sendClosed := true } : Client).drain).isSome ∧
     (∀ p ∈ (srvWithChan.dispatchRemoveClient clientFresh).1.channels,
        p.1 = clientFresh.channel →
        ∀ x ∈ p.2.clients, x.cid ≠ clientFresh.cid) ∧
     ((chanC3.removeClient clientFresh).1.ClientCount = 0 →
       ¬ clientFresh.channel ∈ (srvWithChan.dispatchRemoveClient clientFresh).1.Channels)) :=
  ⟨by decide, by decide,
   C6_remove_client srvWithChan clientFresh chanC3 (by decide) (by decide)⟩

/-- C7: on the running server with a subscribed client, `Restart` returns
no error, empties the channel map, closes the detached client's outbox
(its drain terminates), leaves the dispatch loop alive, and admitting a
fresh subscriber immediately afterwards succeeds — the parts of the
claim the code satisfies; `Restart` on the never-started server fails
with `NotStarted`; but on a server whose `Shutdown` has completed — also
a non-running server — `Restart` returns no error instead of
`NotStarted` (the shutdown branch of dispatch never resets `isStarted`),
even though the dispatch loop is dead. -/
theorem C7_restart_divergence :
    srvWithChan.Restart = .ok srvRunning ∧
    (srvWithChan.close).2.map Client.sendClosed = [true] ∧
    ((srvWithChan.close).2.map Client.drain).all Option.isSome = true ∧
    srvRunning.dispatchRunning = true ∧
    (srvRunning.dispatchAddClient clientRoom).ClientCount = 1 ∧
    srvUnstarted.Restart = .error .ServerNotStarted ∧
    srvStopped.Restart = .ok srvStopped ∧
    ¬ srvStopped.Restart = .error .ServerNotStarted ∧
    srvStopped.dispatchRunning = false := by
  decide

/-- C8 counterexample: on the never-started server — a server whose state
is not running — `CloseChannel` does not fail with `NotStarted`: it has
no error return at all, and its send on the unbuffered control channel
blocks forever because no dispatch loop is alive to receive it. -/
theorem C8_counterexample :
    srvUnstarted.CloseChannel "t" = OpOutcome.blocksForever ∧
    srvUnstarted.CloseChannel "t" ≠ OpOutcome.err .ServerNotStarted ∧
    srvUnstarted.CloseChannel "t" ≠ OpOutcome.err .ServerStarted := by
  decide

/-- C8 (amended): `CloseChannel` performs no started-state check and has
no error return: on a server with no live dispatch loop and open control
channels (a never-started server) the call blocks forever rather than
returning control; once the control channels are closed (after shutdown)
it panics with a send on a closed channel; only with a live dispatch
loop does it return, handing the name to the dispatch close branch; in
no case does it return an error value. -/
theorem C8_closeChannel_amended (s : Server) (name : String) :
    (s.dispatchRunning = false → s.ctrlClosed = false →
      s.CloseChannel name = .blocksForever) ∧
    (s.ctrlClosed = true → s.CloseChannel name = .panicSendOnClosed) ∧
    (s.dispatchRunning = true → s.ctrlClosed = false →
      s.CloseChannel name = .ok (s.dispatchCloseChannel name)) ∧
    (∀ e, s.CloseChannel name ≠ .err e) := by
  refine ⟨?_, ?_, ?_, ?_⟩
  · intro hd hc
    simp [Server.CloseChannel, hd, hc]
  · intro hc
    simp [Server.CloseChannel, hc]
  · intro hd hc
    simp [Server.CloseChannel, hd, hc]
  · intro e
    unfold Server.CloseChannel
    split
    · simp
    · split <;> simp

theorem C8_closeChannel_amended_witness :
    srvUnstarted.dispatchRunning = false ∧
    srvUnstarted.ctrlClosed = false ∧
    srvUnstarted.CloseChannel "t" = .blocksForever :=
  ⟨by decide, by decide,
   (C8_closeChannel_amended srvUnstarted "t").1 (by decide) (by decide)⟩

/-- C9: while the server is started and the response writer supports
streaming: a request whose method is neither GET nor OPTIONS is answered
405 Method Not Allowed with no client admitted and no stream opened; an
OPTIONS request is answered with exactly the configured extra headers,
no explicit status, no stream and no admission; and a stream is only
ever opened for a GET request. -/
theorem C9_method_gate (s : Server) (fok : Bool) (r : Request)
    (hs : s.isStarted = true) (hf : fok = true) :
    (r.method ≠ "GET" → r.method ≠ "OPTIONS" →
      (s.ServeHTTP fok r).status = some 405 ∧
      (s.ServeHTTP fok r).clientAdmitted = false ∧
      (s.ServeHTTP fok r).streamOpened = false) ∧
    (r.method = "OPTIONS" →
      s.ServeHTTP fok r =
        { status := none, headers := s.options.headers,
          streamOpened := false, clientAdmitted := false }) ∧
    ((s.ServeHTTP fok r).streamOpened = true → r.method = "GET") := by
  refine ⟨?_, ?_, ?_⟩
  · intro hg ho
    simp [Server.ServeHTTP, hs, hf, hg, ho]
  · intro ho
    have hg : ¬ r.method = "GET" := by
      rw [ho]
      decide
    simp [Server.ServeHTTP, hs, hf, hg, ho]
  · intro hstream
    by_cases hg : r.method = "GET"
    · exact hg
    · exfalso
      by_cases ho : r.method = "OPTIONS" <;>
        simp [Server.ServeHTTP, hs, hf, hg, ho] at hstream

/-- A non-GET, non-OPTIONS request used to exercise the 405 path. -/
def reqDelete : Request :=
  { method := "DELETE", path := "/t", lastEventIDHeader := "", ctxDone := false }

theorem C9_method_gate_witness :
    srvRunning.isStarted = true ∧
    ((reqDelete.method ≠ "GET" → reqDelete.method ≠ "OPTIONS" →
       (srvRunning.ServeHTTP true reqDelete).status = some 405 ∧
       (srvRunning.ServeHTTP true reqDelete).clientAdmitted = false ∧
       (srvRunning.ServeHTTP true reqDelete).streamOpened = false) ∧
     (reqDelete.method = "OPTIONS" →
       srvRunning.ServeHTTP true reqDelete =
         { status := none, headers := srvRunning.options.headers,
           streamOpened := false, clientAdmitted := false }) ∧
     ((srvRunning.ServeHTTP true reqDelete).streamOpened = true →
       reqDelete.method = "GET")) :=
  ⟨by decide, C9_method_gate srvRunning true reqDelete (by decide) rfl⟩

/-- C10: whenever `Shutdown` completes normally, the resulting server
still reports itself started (`hasStarted` stays true — the dispatch
shutdown branch never resets the flag) while its four control channels
are closed, so a subsequent `Shutdown` or `CloseChannel` call performs a
send on a closed channel — a panic — instead of returning an error. -/
theorem C10_shutdown_leaves_started (s s' : Server)
    (h : s.Shutdown = .ok s') :
    s'.hasStarted = true ∧
    s'.ctrlClosed = true ∧
    s'.Shutdown = .panicSendOnClosed ∧
    (∀ name, s'.CloseChannel name = .panicSendOnClosed) := by
  unfold Server.Shutdown at h
  split_ifs at h with h1 h2 h3
  injection h with h4
  subst h4
  have hi : s.isStarted = true := by
    simpa [Server.hasStarted] using h1
  refine ⟨by simp [Server.hasStarted, Server.close, hi], rfl, ?_, fun name => ?_⟩
  · simp [Server.Shutdown, Server.hasStarted, Server.close, hi]
  · simp [Server.CloseChannel]

theorem C10_shutdown_leaves_started_witness :
    srvRunning.Shutdown = .ok srvStopped ∧
    (srvStopped.hasStarted = true ∧
     srvStopped.ctrlClosed = true ∧
     srvStopped.Shutdown = .panicSendOnClosed ∧
     (∀ name, srvStopped.CloseChannel name = .panicSendOnClosed)) :=
  ⟨by decide, C10_shutdown_leaves_started srvRunning srvStopped (by decide)⟩

end SSE
